import Mathlib

/-!
Shallow embedding of `src/ext/apache2/Configuration.cpp` (Phusion Passenger
Apache module configuration engine): scope records, setter handlers, the
pairwise merge functions and the cross-server normalizer, together with
theorems checking the specification's description of them.

Modelling conventions:
* `char *` strings that use NULL as an "unset" sentinel become `Option String`.
* C `std::set<string>` fields become `Finset String`.
* `unsigned int` / `unsigned long` fields become `Nat`; the `(unsigned int)`
  cast applied by the setters is an explicit `% 2^32` (resp. `% 2^64`).
* `strtol(arg, &end, 10)` is modelled by `strtol10` below, following the C
  standard: skip leading whitespace, optional sign, a run of decimal digits,
  clamping to `[LONG_MIN, LONG_MAX]` on overflow; when no digits are consumed
  the end pointer equals the start pointer (the whole input is returned as
  the rest).
* Each directive handler `cmd_*` becomes a pure function from the target
  record and the raw argument to `Option String × Record`: the first
  component is the C return value (`none` = NULL = success, `some msg` =
  the fixed error string) and the second is the (possibly updated) record.
* `passenger_config_merge_all_servers` walks the linked list of server
  records; the list is modelled as `List ServerConfig` and the second
  (broadcast) loop as a `map` that replaces every record with the fold
  result.  The stderr warning of the obsolete directive is outside the model.
-/

inductive Threeway where
  | UNSET
  | ENABLED
  | DISABLED
deriving DecidableEq

inductive SpawnMethod where
  | SM_UNSET
  | SM_SMART
  | SM_SMART_LV2
  | SM_CONSERVATIVE
deriving DecidableEq

structure DirConfig where
  enabled : Threeway
  autoDetectRails : Threeway
  autoDetectRack : Threeway
  autoDetectWSGI : Threeway
  allowModRewrite : Threeway
  railsBaseURIs : Finset String
  rackBaseURIs : Finset String
  railsEnv : Option String
  rackEnv : Option String
  railsAppRoot : Option String
  spawnMethod : SpawnMethod
  frameworkSpawnerTimeout : Int
  appSpawnerTimeout : Int
  maxRequests : Nat
  maxRequestsSpecified : Bool
  memoryLimit : Nat
  memoryLimitSpecified : Bool
  highPerformance : Threeway
  useGlobalQueue : Threeway
deriving DecidableEq

structure ServerConfig where
  ruby : Option String
  root : Option String
  logLevel : Nat
  maxPoolSize : Nat
  maxPoolSizeSpecified : Bool
  maxInstancesPerApp : Nat
  maxInstancesPerAppSpecified : Bool
  poolIdleTime : Nat
  poolIdleTimeSpecified : Bool
  userSwitching : Bool
  userSwitchingSpecified : Bool
  defaultUser : Option String
deriving DecidableEq

def DEFAULT_LOG_LEVEL : Nat := 0
def DEFAULT_MAX_POOL_SIZE : Nat := 6
def DEFAULT_POOL_IDLE_TIME : Nat := 300
def DEFAULT_MAX_INSTANCES_PER_APP : Nat := 0

def passenger_config_create_dir : DirConfig :=
  { enabled := Threeway.UNSET
    autoDetectRails := Threeway.UNSET
    autoDetectRack := Threeway.UNSET
    autoDetectWSGI := Threeway.UNSET
    allowModRewrite := Threeway.UNSET
    railsBaseURIs := ∅
    rackBaseURIs := ∅
    railsEnv := none
    rackEnv := none
    railsAppRoot := none
    spawnMethod := SpawnMethod.SM_UNSET
    frameworkSpawnerTimeout := -1
    appSpawnerTimeout := -1
    maxRequests := 0
    maxRequestsSpecified := false
    memoryLimit := 0
    memoryLimitSpecified := false
    highPerformance := Threeway.UNSET
    useGlobalQueue := Threeway.UNSET }

def passenger_config_merge_dir (base add : DirConfig) : DirConfig :=
  { enabled := if add.enabled = Threeway.UNSET then base.enabled else add.enabled
    railsBaseURIs := base.railsBaseURIs ∪ add.railsBaseURIs
    rackBaseURIs := base.rackBaseURIs ∪ add.rackBaseURIs
    autoDetectRails := if add.autoDetectRails = Threeway.UNSET then base.autoDetectRails else add.autoDetectRails
    autoDetectRack := if add.autoDetectRack = Threeway.UNSET then base.autoDetectRack else add.autoDetectRack
    autoDetectWSGI := if add.autoDetectWSGI = Threeway.UNSET then base.autoDetectWSGI else add.autoDetectWSGI
    allowModRewrite := if add.allowModRewrite = Threeway.UNSET then base.allowModRewrite else add.allowModRewrite
    railsEnv := if add.railsEnv = none then base.railsEnv else add.railsEnv
    rackEnv := if add.rackEnv = none then base.rackEnv else add.rackEnv
    railsAppRoot := if add.railsAppRoot = none then base.railsAppRoot else add.railsAppRoot
    spawnMethod := if add.spawnMethod = SpawnMethod.SM_UNSET then base.spawnMethod else add.spawnMethod
    frameworkSpawnerTimeout := if add.frameworkSpawnerTimeout = -1 then base.frameworkSpawnerTimeout else add.frameworkSpawnerTimeout
    appSpawnerTimeout := if add.appSpawnerTimeout = -1 then base.appSpawnerTimeout else add.appSpawnerTimeout
    maxRequests := if add.maxRequestsSpecified then add.maxRequests else base.maxRequests
    maxRequestsSpecified := base.maxRequestsSpecified || add.maxRequestsSpecified
    memoryLimit := if add.memoryLimitSpecified then add.memoryLimit else base.memoryLimit
    memoryLimitSpecified := base.memoryLimitSpecified || add.memoryLimitSpecified
    highPerformance := if add.highPerformance = Threeway.UNSET then base.highPerformance else add.highPerformance
    useGlobalQueue := if add.useGlobalQueue = Threeway.UNSET then base.useGlobalQueue else add.useGlobalQueue }

def passenger_config_create_server : ServerConfig :=
  { ruby := none
    root := none
    logLevel := DEFAULT_LOG_LEVEL
    maxPoolSize := DEFAULT_MAX_POOL_SIZE
    maxPoolSizeSpecified := false
    maxInstancesPerApp := DEFAULT_MAX_INSTANCES_PER_APP
    maxInstancesPerAppSpecified := false
    poolIdleTime := DEFAULT_POOL_IDLE_TIME
    poolIdleTimeSpecified := false
    userSwitching := true
    userSwitchingSpecified := false
    defaultUser := none }

def passenger_config_merge_server (base add : ServerConfig) : ServerConfig :=
  { ruby := if add.ruby = none then base.ruby else add.ruby
    root := if add.root = none then base.root else add.root
    logLevel := if add.logLevel ≠ 0 then base.logLevel else add.logLevel
    maxPoolSize := if add.maxPoolSizeSpecified then base.maxPoolSize else add.maxPoolSize
    maxPoolSizeSpecified := base.maxPoolSizeSpecified || add.maxPoolSizeSpecified
    maxInstancesPerApp := if add.maxInstancesPerAppSpecified then base.maxInstancesPerApp else add.maxInstancesPerApp
    maxInstancesPerAppSpecified := base.maxInstancesPerAppSpecified || add.maxInstancesPerAppSpecified
    poolIdleTime := if add.poolIdleTime ≠ 0 then base.poolIdleTime else add.poolIdleTime
    poolIdleTimeSpecified := base.poolIdleTimeSpecified || add.poolIdleTimeSpecified
    userSwitching := if add.userSwitchingSpecified then add.userSwitching else base.userSwitching
    userSwitchingSpecified := base.userSwitchingSpecified || add.userSwitchingSpecified
    defaultUser := if add.defaultUser = none then base.defaultUser else add.defaultUser }

def mergeAllStep (final config : ServerConfig) : ServerConfig :=
  { ruby := if final.ruby.isSome then final.ruby else config.ruby
    root := if final.root.isSome then final.root else config.root
    logLevel := if final.logLevel ≠ 0 then final.logLevel else config.logLevel
    maxPoolSize := if final.maxPoolSizeSpecified then final.maxPoolSize else config.maxPoolSize
    maxPoolSizeSpecified := final.maxPoolSizeSpecified || config.maxPoolSizeSpecified
    maxInstancesPerApp := if final.maxInstancesPerAppSpecified then final.maxInstancesPerApp else config.maxInstancesPerApp
    maxInstancesPerAppSpecified := final.maxInstancesPerAppSpecified || config.maxInstancesPerAppSpecified
    poolIdleTime := if final.poolIdleTimeSpecified then final.poolIdleTime else config.poolIdleTime
    poolIdleTimeSpecified := final.poolIdleTimeSpecified || config.poolIdleTimeSpecified
    userSwitching := if config.userSwitchingSpecified then config.userSwitching else final.userSwitching
    userSwitchingSpecified := final.userSwitchingSpecified || config.userSwitchingSpecified
    defaultUser := if final.defaultUser.isSome then final.defaultUser else config.defaultUser }

def mergeAllFold (servers : List ServerConfig) : ServerConfig :=
  servers.foldl mergeAllStep passenger_config_create_server

def passenger_config_merge_all_servers (servers : List ServerConfig) : List ServerConfig :=
  servers.map fun _ => mergeAllFold servers

/-! ### The C `strtol(arg, &end, 10)` model and the fixed error messages -/

def LONG_MAX : Int := 9223372036854775807

def LONG_MIN : Int := -9223372036854775808

def clampLong (x : Int) : Int :=
  if x > LONG_MAX then LONG_MAX else if x < LONG_MIN then LONG_MIN else x

def isCSpace (c : Char) : Bool :=
  c = ' ' || c = '\t' || c = '\n' || c = '\x0b' || c = '\x0c' || c = '\r'

def decDigitsValue (ds : List Char) : Nat :=
  ds.foldl (fun a c => a * 10 + (c.toNat - 48)) 0

def strtol10 (s : List Char) : Int × List Char :=
  let t := s.dropWhile isCSpace
  let p : Int × List Char :=
    match t with
    | '-' :: r => (-1, r)
    | '+' :: r => (1, r)
    | _ => (1, t)
  let ds := p.2.takeWhile Char.isDigit
  if ds.isEmpty then (0, s)
  else (clampLong (p.1 * (decDigitsValue ds : Int)), p.2.dropWhile Char.isDigit)

def uintOfLong (x : Int) : Nat := (x % 4294967296).toNat

def ulongOfLong (x : Int) : Nat := (x % 18446744073709551616).toNat

def msg_PassengerLogLevel_invalid : String :=
  "Invalid number specified for PassengerLogLevel."

def msg_PassengerLogLevel_range : String :=
  "Value for PassengerLogLevel must be between 0 and 9."

def msg_PassengerMaxPoolSize_invalid : String :=
  "Invalid number specified for PassengerMaxPoolSize."

def msg_PassengerMaxPoolSize_range : String :=
  "Value for PassengerMaxPoolSize must be greater than 0."

def msg_PassengerMaxInstancesPerApp_invalid : String :=
  "Invalid number specified for PassengerMaxInstancesPerApp."

def msg_PassengerPoolIdleTime_invalid : String :=
  "Invalid number specified for PassengerPoolIdleTime."

def msg_PassengerPoolIdleTime_range : String :=
  "Value for PassengerPoolIdleTime must be greater than 0."

def msg_PassengerMaxRequests_invalid : String :=
  "Invalid number specified for PassengerMaxRequests."

def msg_PassengerMaxRequests_range : String :=
  "Value for PassengerMaxRequests must be greater than or equal to 0."

def msg_RailsSpawnMethod_choices : String :=
  "RailsSpawnMethod may only be \x27smart\x27, \x27smart-lv2\x27 or \x27conservative\x27."

def msg_RailsFrameworkSpawnerIdleTime_invalid : String :=
  "Invalid number specified for RailsFrameworkSpawnerIdleTime."

def msg_RailsFrameworkSpawnerIdleTime_range : String :=
  "Value for RailsFrameworkSpawnerIdleTime must be at least 0."

def msg_RailsAppSpawnerIdleTime_invalid : String :=
  "Invalid number specified for RailsAppSpawnerIdleTime."

def msg_RailsAppSpawnerIdleTime_range : String :=
  "Value for RailsAppSpawnerIdleTime must be at least 0."

/-! ### Setter handlers (Passenger settings) -/

def cmd_passenger_root (config : ServerConfig) (arg : String) :
    Option String × ServerConfig :=
  (none, { config with root := some arg })

def cmd_passenger_log_level (config : ServerConfig) (arg : String) :
    Option String × ServerConfig :=
  let r := strtol10 arg.data
  if r.2.isEmpty = false then
    (some msg_PassengerLogLevel_invalid, config)
  else if r.1 < 0 ∨ r.1 > 9 then
    (some msg_PassengerLogLevel_range, config)
  else
    (none, { config with logLevel := uintOfLong r.1 })

def cmd_passenger_ruby (config : ServerConfig) (arg : String) :
    Option String × ServerConfig :=
  (none, { config with ruby := some arg })

def cmd_passenger_max_pool_size (config : ServerConfig) (arg : String) :
    Option String × ServerConfig :=
  let r := strtol10 arg.data
  if r.2.isEmpty = false then
    (some msg_PassengerMaxPoolSize_invalid, config)
  else if r.1 ≤ 0 then
    (some msg_PassengerMaxPoolSize_range, config)
  else
    (none, { config with maxPoolSize := uintOfLong r.1, maxPoolSizeSpecified := true })

def cmd_passenger_max_instances_per_app (config : ServerConfig) (arg : String) :
    Option String × ServerConfig :=
  let r := strtol10 arg.data
  if r.2.isEmpty = false then
    (some msg_PassengerMaxInstancesPerApp_invalid, config)
  else
    (none, { config with maxInstancesPerApp := uintOfLong r.1, maxInstancesPerAppSpecified := true })

def cmd_passenger_pool_idle_time (config : ServerConfig) (arg : String) :
    Option String × ServerConfig :=
  let r := strtol10 arg.data
  if r.2.isEmpty = false then
    (some msg_PassengerPoolIdleTime_invalid, config)
  else if r.1 ≤ 0 then
    (some msg_PassengerPoolIdleTime_range, config)
  else
    (none, { config with poolIdleTime := uintOfLong r.1, poolIdleTimeSpecified := true })

def cmd_passenger_use_global_queue (config : DirConfig) (arg : Bool) :
    Option String × DirConfig :=
  if arg then
    (none, { config with useGlobalQueue := Threeway.ENABLED })
  else
    (none, { config with useGlobalQueue := Threeway.DISABLED })

def cmd_passenger_user_switching (config : ServerConfig) (arg : Bool) :
    Option String × ServerConfig :=
  (none, { config with userSwitching := arg, userSwitchingSpecified := true })

def cmd_passenger_default_user (config : ServerConfig) (arg : String) :
    Option String × ServerConfig :=
  (none, { config with defaultUser := some arg })

def cmd_passenger_max_requests (config : DirConfig) (arg : String) :
    Option String × DirConfig :=
  let r := strtol10 arg.data
  if r.2.isEmpty = false then
    (some msg_PassengerMaxRequests_invalid, config)
  else if r.1 < 0 then
    (some msg_PassengerMaxRequests_range, config)
  else
    (none, { config with maxRequests := ulongOfLong r.1, maxRequestsSpecified := true })

def cmd_passenger_high_performance (config : DirConfig) (arg : Bool) :
    Option String × DirConfig :=
  if arg then
    (none, { config with highPerformance := Threeway.ENABLED })
  else
    (none, { config with highPerformance := Threeway.DISABLED })

def cmd_passenger_enabled (config : DirConfig) (arg : Bool) :
    Option String × DirConfig :=
  if arg then
    (none, { config with enabled := Threeway.ENABLED })
  else
    (none, { config with enabled := Threeway.DISABLED })

/-! ### Setter handlers (Rails-, Rack- and WSGI-specific, obsolete) -/

def cmd_rails_base_uri (config : DirConfig) (arg : String) :
    Option String × DirConfig :=
  (none, { config with railsBaseURIs := insert arg config.railsBaseURIs })

def cmd_rails_auto_detect (config : DirConfig) (arg : Bool) :
    Option String × DirConfig :=
  (none, { config with autoDetectRails := if arg then Threeway.ENABLED else Threeway.DISABLED })

def cmd_rails_allow_mod_rewrite (config : DirConfig) (arg : Bool) :
    Option String × DirConfig :=
  (none, { config with allowModRewrite := if arg then Threeway.ENABLED else Threeway.DISABLED })

def cmd_rails_env (config : DirConfig) (arg : String) :
    Option String × DirConfig :=
  (none, { config with railsEnv := some arg })

def cmd_rails_app_root (config : DirConfig) (arg : String) :
    Option String × DirConfig :=
  (none, { config with railsAppRoot := some arg })

def cmd_rails_spawn_method (config : DirConfig) (arg : String) :
    Option String × DirConfig :=
  if arg = "smart" then
    (none, { config with spawnMethod := SpawnMethod.SM_SMART })
  else if arg = "smart-lv2" then
    (none, { config with spawnMethod := SpawnMethod.SM_SMART_LV2 })
  else if arg = "conservative" then
    (none, { config with spawnMethod := SpawnMethod.SM_CONSERVATIVE })
  else
    (some msg_RailsSpawnMethod_choices, config)

def cmd_rails_framework_spawner_idle_time (config : DirConfig) (arg : String) :
    Option String × DirConfig :=
  let r := strtol10 arg.data
  if r.2.isEmpty = false then
    (some msg_RailsFrameworkSpawnerIdleTime_invalid, config)
  else if r.1 < 0 then
    (some msg_RailsFrameworkSpawnerIdleTime_range, config)
  else
    (none, { config with frameworkSpawnerTimeout := r.1 })

def cmd_rails_app_spawner_idle_time (config : DirConfig) (arg : String) :
    Option String × DirConfig :=
  let r := strtol10 arg.data
  if r.2.isEmpty = false then
    (some msg_RailsAppSpawnerIdleTime_invalid, config)
  else if r.1 < 0 then
    (some msg_RailsAppSpawnerIdleTime_range, config)
  else
    (none, { config with appSpawnerTimeout := r.1 })

def cmd_rack_base_uri (config : DirConfig) (arg : String) :
    Option String × DirConfig :=
  (none, { config with rackBaseURIs := insert arg config.rackBaseURIs })

def cmd_rack_auto_detect (config : DirConfig) (arg : Bool) :
    Option String × DirConfig :=
  (none, { config with autoDetectRack := if arg then Threeway.ENABLED else Threeway.DISABLED })

def cmd_rack_env (config : DirConfig) (arg : String) :
    Option String × DirConfig :=
  (none, { config with rackEnv := some arg })

def cmd_wsgi_auto_detect (config : DirConfig) (arg : Bool) :
    Option String × DirConfig :=
  (none, { config with autoDetectWSGI := if arg then Threeway.ENABLED else Threeway.DISABLED })

def cmd_rails_spawn_server (config : DirConfig) (_arg : String) :
    Option String × DirConfig :=
  (none, config)

/-!
### Concrete records used in scenario theorems and counterexamples

Each is built through the setter handlers, as the host would during
configuration loading.
-/

def cfg_pool10 : ServerConfig :=
  (cmd_passenger_max_pool_size passenger_config_create_server "10").2

def cfg_pool20 : ServerConfig :=
  (cmd_passenger_max_pool_size passenger_config_create_server "20").2

def cfg_userSwitchOff : ServerConfig :=
  (cmd_passenger_user_switching passenger_config_create_server false).2

def cfg_userSwitchOn : ServerConfig :=
  (cmd_passenger_user_switching passenger_config_create_server true).2

def cfg_defaultUserDeploy : ServerConfig :=
  (cmd_passenger_default_user passenger_config_create_server "deploy").2

/-!
### C1 — server-scope pairwise merge of the explicit-set-flagged fields

The claim says the three flagged fields follow the directory-merge pattern
`resolved.value = override.explicitlySet ? override.value : base.value`.
The code has the two branches swapped (and for the idle-time field it tests
the value, not the flag), so the claim fails; the flags themselves are
OR-ed as claimed.
-/

/-- C1 counterexample: merging a default base with an override whose pool-size
was explicitly set to 10 yields the base's pool size 6, not the override's 10
demanded by the claimed `override.explicitlySet ? override.value : base.value`
rule. -/
theorem merge_server_flagged_value_counterexample :
    ¬ ((passenger_config_merge_server passenger_config_create_server cfg_pool10).maxPoolSize
      = if cfg_pool10.maxPoolSizeSpecified then cfg_pool10.maxPoolSize
        else passenger_config_create_server.maxPoolSize) := by
  decide

/-- C1 (amended): in `passenger_config_merge_server` the value branches are
reversed relative to the directory merge: for pool-size and per-app instance
cap `resolved.value = override.explicitlySet ? base.value : override.value`,
and for idle-time `resolved.value = (override.value ≠ 0) ? base.value :
override.value` (the value, not the flag, is tested); the explicit-set flags
are OR-ed: `resolved.explicitlySet = base.explicitlySet ||
override.explicitlySet`. -/
theorem merge_server_flagged_fields_reversed :
    ∀ base add : ServerConfig,
      (passenger_config_merge_server base add).maxPoolSize
        = (if add.maxPoolSizeSpecified then base.maxPoolSize else add.maxPoolSize)
      ∧ (passenger_config_merge_server base add).maxInstancesPerApp
        = (if add.maxInstancesPerAppSpecified then base.maxInstancesPerApp else add.maxInstancesPerApp)
      ∧ (passenger_config_merge_server base add).poolIdleTime
        = (if add.poolIdleTime ≠ 0 then base.poolIdleTime else add.poolIdleTime)
      ∧ (passenger_config_merge_server base add).maxPoolSizeSpecified
        = (base.maxPoolSizeSpecified || add.maxPoolSizeSpecified)
      ∧ (passenger_config_merge_server base add).maxInstancesPerAppSpecified
        = (base.maxInstancesPerAppSpecified || add.maxInstancesPerAppSpecified)
      ∧ (passenger_config_merge_server base add).poolIdleTimeSpecified
        = (base.poolIdleTimeSpecified || add.poolIdleTimeSpecified) :=
  fun _ _ => ⟨rfl, rfl, rfl, rfl, rfl, rfl⟩

/-- C2: the server-scope merge resolves log verbosity with reversed operands:
`resolved.logLevel = override.logLevel ? base.logLevel : override.logLevel`,
so a nonzero override yields the base's level and a zero override yields
zero. -/
theorem merge_server_logLevel_zero_sentinel_reversed :
    ∀ base add : ServerConfig,
      (passenger_config_merge_server base add).logLevel
        = (if add.logLevel ≠ 0 then base.logLevel else add.logLevel)
      ∧ (passenger_config_merge_server base add).logLevel
        = (if add.logLevel ≠ 0 then base.logLevel else 0) := by
  intro base add
  refine ⟨rfl, ?_⟩
  by_cases h : add.logLevel = 0
  · simp [passenger_config_merge_server, h]
  · simp [passenger_config_merge_server, h]

/-- C3: the directory-scope merge is field-by-field: tri-state fields take the
override unless it is Unset, nullable string/enum fields take the override
unless it is null/Unset, `-1`-sentinel integers take the override unless it is
-1, explicit-set-flagged integers take the override's value exactly when the
override's flag is set, and the two reserved-URI sets are the union of base
and override. -/
theorem merge_dir_fieldwise :
    ∀ base add : DirConfig,
      (passenger_config_merge_dir base add).enabled
        = (if add.enabled = Threeway.UNSET then base.enabled else add.enabled)
      ∧ (passenger_config_merge_dir base add).autoDetectRails
        = (if add.autoDetectRails = Threeway.UNSET then base.autoDetectRails else add.autoDetectRails)
      ∧ (passenger_config_merge_dir base add).autoDetectRack
        = (if add.autoDetectRack = Threeway.UNSET then base.autoDetectRack else add.autoDetectRack)
      ∧ (passenger_config_merge_dir base add).autoDetectWSGI
        = (if add.autoDetectWSGI = Threeway.UNSET then base.autoDetectWSGI else add.autoDetectWSGI)
      ∧ (passenger_config_merge_dir base add).allowModRewrite
        = (if add.allowModRewrite = Threeway.UNSET then base.allowModRewrite else add.allowModRewrite)
      ∧ (passenger_config_merge_dir base add).highPerformance
        = (if add.highPerformance = Threeway.UNSET then base.highPerformance else add.highPerformance)
      ∧ (passenger_config_merge_dir base add).useGlobalQueue
        = (if add.useGlobalQueue = Threeway.UNSET then base.useGlobalQueue else add.useGlobalQueue)
      ∧ (passenger_config_merge_dir base add).railsEnv
        = (if add.railsEnv = none then base.railsEnv else add.railsEnv)
      ∧ (passenger_config_merge_dir base add).rackEnv
        = (if add.rackEnv = none then base.rackEnv else add.rackEnv)
      ∧ (passenger_config_merge_dir base add).railsAppRoot
        = (if add.railsAppRoot = none then base.railsAppRoot else add.railsAppRoot)
      ∧ (passenger_config_merge_dir base add).spawnMethod
        = (if add.spawnMethod = SpawnMethod.SM_UNSET then base.spawnMethod else add.spawnMethod)
      ∧ (passenger_config_merge_dir base add).frameworkSpawnerTimeout
        = (if add.frameworkSpawnerTimeout = -1 then base.frameworkSpawnerTimeout else add.frameworkSpawnerTimeout)
      ∧ (passenger_config_merge_dir base add).appSpawnerTimeout
        = (if add.appSpawnerTimeout = -1 then base.appSpawnerTimeout else add.appSpawnerTimeout)
      ∧ (passenger_config_merge_dir base add).maxRequests
        = (if add.maxRequestsSpecified then add.maxRequests else base.maxRequests)
      ∧ (passenger_config_merge_dir base add).memoryLimit
        = (if add.memoryLimitSpecified then add.memoryLimit else base.memoryLimit)
      ∧ (passenger_config_merge_dir base add).railsBaseURIs
        = base.railsBaseURIs ∪ add.railsBaseURIs
      ∧ (passenger_config_merge_dir base add).rackBaseURIs
        = base.rackBaseURIs ∪ add.rackBaseURIs :=
  fun _ _ =>
    ⟨rfl, rfl, rfl, rfl, rfl, rfl, rfl, rfl, rfl, rfl, rfl, rfl, rfl, rfl, rfl, rfl, rfl⟩

/-- C4: every explicit-set flag is OR-ed by both pairwise merges
(`maxRequestsSpecified` and `memoryLimitSpecified` in the directory merge;
`maxPoolSizeSpecified`, `maxInstancesPerAppSpecified`, `poolIdleTimeSpecified`
and `userSwitchingSpecified` in the server merge), hence a flag set in either
input is set in the merged record and remains set under any further merges. -/
theorem merge_flags_monotone :
    ∀ (baseD addD : DirConfig) (baseS addS : ServerConfig),
      (passenger_config_merge_dir baseD addD).maxRequestsSpecified
        = (baseD.maxRequestsSpecified || addD.maxRequestsSpecified)
      ∧ (passenger_config_merge_dir baseD addD).memoryLimitSpecified
        = (baseD.memoryLimitSpecified || addD.memoryLimitSpecified)
      ∧ (passenger_config_merge_server baseS addS).maxPoolSizeSpecified
        = (baseS.maxPoolSizeSpecified || addS.maxPoolSizeSpecified)
      ∧ (passenger_config_merge_server baseS addS).maxInstancesPerAppSpecified
        = (baseS.maxInstancesPerAppSpecified || addS.maxInstancesPerAppSpecified)
      ∧ (passenger_config_merge_server baseS addS).poolIdleTimeSpecified
        = (baseS.poolIdleTimeSpecified || addS.poolIdleTimeSpecified)
      ∧ (passenger_config_merge_server baseS addS).userSwitchingSpecified
        = (baseS.userSwitchingSpecified || addS.userSwitchingSpecified) :=
  fun _ _ _ _ => ⟨rfl, rfl, rfl, rfl, rfl, rfl⟩

/-!
### Projection lemmas for the cross-server fold

Each field of the accumulator evolves independently during the fold loop of
`passenger_config_merge_all_servers`; these lemmas compute the projections of
the record-level fold as field-level folds.
-/

theorem foldl_mergeAllStep_maxPoolSize (ss : List ServerConfig) (acc : ServerConfig) :
    ((ss.foldl mergeAllStep acc).maxPoolSize, (ss.foldl mergeAllStep acc).maxPoolSizeSpecified)
      = ss.foldl (fun p c => (if p.2 then p.1 else c.maxPoolSize, p.2 || c.maxPoolSizeSpecified))
          (acc.maxPoolSize, acc.maxPoolSizeSpecified) := by
  induction ss generalizing acc with
  | nil => rfl
  | cons c t ih => exact ih (mergeAllStep acc c)

theorem foldl_mergeAllStep_maxInstancesPerApp (ss : List ServerConfig) (acc : ServerConfig) :
    ((ss.foldl mergeAllStep acc).maxInstancesPerApp,
      (ss.foldl mergeAllStep acc).maxInstancesPerAppSpecified)
      = ss.foldl
          (fun p c => (if p.2 then p.1 else c.maxInstancesPerApp, p.2 || c.maxInstancesPerAppSpecified))
          (acc.maxInstancesPerApp, acc.maxInstancesPerAppSpecified) := by
  induction ss generalizing acc with
  | nil => rfl
  | cons c t ih => exact ih (mergeAllStep acc c)

theorem foldl_mergeAllStep_poolIdleTime (ss : List ServerConfig) (acc : ServerConfig) :
    ((ss.foldl mergeAllStep acc).poolIdleTime, (ss.foldl mergeAllStep acc).poolIdleTimeSpecified)
      = ss.foldl (fun p c => (if p.2 then p.1 else c.poolIdleTime, p.2 || c.poolIdleTimeSpecified))
          (acc.poolIdleTime, acc.poolIdleTimeSpecified) := by
  induction ss generalizing acc with
  | nil => rfl
  | cons c t ih => exact ih (mergeAllStep acc c)

theorem foldl_mergeAllStep_maxPoolSizeSpecified (ss : List ServerConfig) (acc : ServerConfig) :
    (ss.foldl mergeAllStep acc).maxPoolSizeSpecified
      = (acc.maxPoolSizeSpecified || ss.any fun c => c.maxPoolSizeSpecified) := by
  induction ss generalizing acc with
  | nil => simp
  | cons c t ih =>
      have hstep : (mergeAllStep acc c).maxPoolSizeSpecified
          = (acc.maxPoolSizeSpecified || c.maxPoolSizeSpecified) := rfl
      simp [List.any_cons, ih (mergeAllStep acc c), hstep, Bool.or_assoc]

theorem foldl_mergeAllStep_maxInstancesPerAppSpecified (ss : List ServerConfig) (acc : ServerConfig) :
    (ss.foldl mergeAllStep acc).maxInstancesPerAppSpecified
      = (acc.maxInstancesPerAppSpecified || ss.any fun c => c.maxInstancesPerAppSpecified) := by
  induction ss generalizing acc with
  | nil => simp
  | cons c t ih =>
      have hstep : (mergeAllStep acc c).maxInstancesPerAppSpecified
          = (acc.maxInstancesPerAppSpecified || c.maxInstancesPerAppSpecified) := rfl
      simp [List.any_cons, ih (mergeAllStep acc c), hstep, Bool.or_assoc]

theorem foldl_mergeAllStep_poolIdleTimeSpecified (ss : List ServerConfig) (acc : ServerConfig) :
    (ss.foldl mergeAllStep acc).poolIdleTimeSpecified
      = (acc.poolIdleTimeSpecified || ss.any fun c => c.poolIdleTimeSpecified) := by
  induction ss generalizing acc with
  | nil => simp
  | cons c t ih =>
      have hstep : (mergeAllStep acc c).poolIdleTimeSpecified
          = (acc.poolIdleTimeSpecified || c.poolIdleTimeSpecified) := rfl
      simp [List.any_cons, ih (mergeAllStep acc c), hstep, Bool.or_assoc]

theorem foldl_mergeAllStep_userSwitching (ss : List ServerConfig) (acc : ServerConfig) :
    (ss.foldl mergeAllStep acc).userSwitching
      = ss.foldl (fun a c => if c.userSwitchingSpecified then c.userSwitching else a)
          acc.userSwitching := by
  induction ss generalizing acc with
  | nil => rfl
  | cons c t ih => exact ih (mergeAllStep acc c)

theorem foldl_mergeAllStep_ruby (ss : List ServerConfig) (acc : ServerConfig) :
    (ss.foldl mergeAllStep acc).ruby
      = (if acc.ruby.isSome then acc.ruby else ss.findSome? fun c => c.ruby) := by
  induction ss generalizing acc with
  | nil => cases h : acc.ruby <;> simp [h]
  | cons c t ih =>
      have hstep : (mergeAllStep acc c).ruby
          = (if acc.ruby.isSome then acc.ruby else c.ruby) := rfl
      rw [List.foldl_cons, ih (mergeAllStep acc c), hstep]
      cases hd : acc.ruby with
      | some v => simp [hd]
      | none => cases hc : c.ruby <;> simp [hd, hc, List.findSome?_cons]

theorem foldl_mergeAllStep_root (ss : List ServerConfig) (acc : ServerConfig) :
    (ss.foldl mergeAllStep acc).root
      = (if acc.root.isSome then acc.root else ss.findSome? fun c => c.root) := by
  induction ss generalizing acc with
  | nil => cases h : acc.root <;> simp [h]
  | cons c t ih =>
      have hstep : (mergeAllStep acc c).root
          = (if acc.root.isSome then acc.root else c.root) := rfl
      rw [List.foldl_cons, ih (mergeAllStep acc c), hstep]
      cases hd : acc.root with
      | some v => simp [hd]
      | none => cases hc : c.root <;> simp [hd, hc, List.findSome?_cons]

theorem foldl_mergeAllStep_defaultUser (ss : List ServerConfig) (acc : ServerConfig) :
    (ss.foldl mergeAllStep acc).defaultUser
      = (if acc.defaultUser.isSome then acc.defaultUser
         else ss.findSome? fun c => c.defaultUser) := by
  induction ss generalizing acc with
  | nil => cases h : acc.defaultUser <;> simp [h]
  | cons c t ih =>
      have hstep : (mergeAllStep acc c).defaultUser
          = (if acc.defaultUser.isSome then acc.defaultUser else c.defaultUser) := rfl
      rw [List.foldl_cons, ih (mergeAllStep acc c), hstep]
      cases hd : acc.defaultUser with
      | some v => simp [hd]
      | none => cases hc : c.defaultUser <;> simp [hd, hc, List.findSome?_cons]

/-- C5 counterexample: with two servers that both explicitly set the pool
size (to 10 and then 20), the fold keeps the first server's value 10, not the
last explicitly-set value 20 that the claimed "current server's value wins if
currently set, else keep accumulator" rule would produce. -/
theorem merge_all_fold_flagged_counterexample :
    ¬ ((mergeAllFold [cfg_pool10, cfg_pool20]).maxPoolSize
      = [cfg_pool10, cfg_pool20].foldl
          (fun a c => if c.maxPoolSizeSpecified then c.maxPoolSize else a)
          DEFAULT_MAX_POOL_SIZE) := by
  decide

/-- C5 (amended): in the fold pass of `passenger_config_merge_all_servers`,
each explicit-set-flagged field keeps the accumulator's value once the
accumulator's flag is set and otherwise takes the current server's value
(so the first server whose flag is set wins, not the last), while the
explicit-set flags are OR-ed across all servers in the list. -/
theorem merge_all_fold_flagged_first_set_wins :
    ∀ ss : List ServerConfig,
      ((mergeAllFold ss).maxPoolSize, (mergeAllFold ss).maxPoolSizeSpecified)
        = ss.foldl
            (fun p c => (if p.2 then p.1 else c.maxPoolSize, p.2 || c.maxPoolSizeSpecified))
            (DEFAULT_MAX_POOL_SIZE, false)
      ∧ ((mergeAllFold ss).maxInstancesPerApp, (mergeAllFold ss).maxInstancesPerAppSpecified)
        = ss.foldl
            (fun p c =>
              (if p.2 then p.1 else c.maxInstancesPerApp, p.2 || c.maxInstancesPerAppSpecified))
            (DEFAULT_MAX_INSTANCES_PER_APP, false)
      ∧ ((mergeAllFold ss).poolIdleTime, (mergeAllFold ss).poolIdleTimeSpecified)
        = ss.foldl
            (fun p c => (if p.2 then p.1 else c.poolIdleTime, p.2 || c.poolIdleTimeSpecified))
            (DEFAULT_POOL_IDLE_TIME, false)
      ∧ (mergeAllFold ss).maxPoolSizeSpecified = (ss.any fun c => c.maxPoolSizeSpecified)
      ∧ (mergeAllFold ss).maxInstancesPerAppSpecified
        = (ss.any fun c => c.maxInstancesPerAppSpecified)
      ∧ (mergeAllFold ss).poolIdleTimeSpecified = (ss.any fun c => c.poolIdleTimeSpecified) := by
  intro ss
  refine ⟨foldl_mergeAllStep_maxPoolSize ss passenger_config_create_server,
    foldl_mergeAllStep_maxInstancesPerApp ss passenger_config_create_server,
    foldl_mergeAllStep_poolIdleTime ss passenger_config_create_server, ?_, ?_, ?_⟩
  · rw [mergeAllFold, foldl_mergeAllStep_maxPoolSizeSpecified ss passenger_config_create_server]
    simp [passenger_config_create_server]
  · rw [mergeAllFold,
      foldl_mergeAllStep_maxInstancesPerAppSpecified ss passenger_config_create_server]
    simp [passenger_config_create_server]
  · rw [mergeAllFold, foldl_mergeAllStep_poolIdleTimeSpecified ss passenger_config_create_server]
    simp [passenger_config_create_server]

/-- C6: in the fold pass the boolean user-switching field takes the value of
the last server in the list whose `userSwitchingSpecified` flag is true (the
fold starts from the default `true`); in particular, with user switching set
to false in server 1 and explicitly to true in server 3, every record after
normalization reports `true`. -/
theorem merge_all_userSwitching_last_explicit_wins :
    (∀ ss : List ServerConfig,
      (mergeAllFold ss).userSwitching
        = ss.foldl (fun a c => if c.userSwitchingSpecified then c.userSwitching else a) true)
    ∧ ((passenger_config_merge_all_servers
          [cfg_userSwitchOff, passenger_config_create_server, cfg_userSwitchOn]).map
        fun c => c.userSwitching) = [true, true, true] := by
  refine ⟨?_, by decide⟩
  intro ss
  exact foldl_mergeAllStep_userSwitching ss passenger_config_create_server

/-- C7: `passenger_config_merge_all_servers` replaces every server record
with a full copy of the folded accumulator (so all records are identical),
the accumulator's nullable string fields being the first non-null value in
list order; in particular, with three servers of which only the second sets
default-user to "deploy", all three records report it afterwards. -/
theorem merge_all_broadcast_first_nonnull :
    (∀ ss : List ServerConfig,
      passenger_config_merge_all_servers ss = List.replicate ss.length (mergeAllFold ss))
    ∧ (∀ ss : List ServerConfig,
        (mergeAllFold ss).ruby = (ss.findSome? fun c => c.ruby)
        ∧ (mergeAllFold ss).root = (ss.findSome? fun c => c.root)
        ∧ (mergeAllFold ss).defaultUser = (ss.findSome? fun c => c.defaultUser))
    ∧ ((passenger_config_merge_all_servers
          [passenger_config_create_server, cfg_defaultUserDeploy, passenger_config_create_server]).map
        fun c => c.defaultUser) = [some "deploy", some "deploy", some "deploy"] := by
  refine ⟨?_, ?_, by decide⟩
  · intro ss
    simp [passenger_config_merge_all_servers, List.map_const']
  · intro ss
    refine ⟨?_, ?_, ?_⟩
    · simpa using foldl_mergeAllStep_ruby ss passenger_config_create_server
    · simpa using foldl_mergeAllStep_root ss passenger_config_create_server
    · simpa using foldl_mergeAllStep_defaultUser ss passenger_config_create_server

/-- C8: the integer-directive setters succeed exactly when `strtol` consumes
the whole argument as a base-10 integer and the value lies within the
documented bounds, and return the fixed message otherwise; at the boundaries,
the log-level setter accepts 0 and 9 and rejects -1, 10 and "5x" (the
trailing non-numeric character yielding the invalid-number message), while
the pool-size and idle-time setters reject 0 and accept 1. -/
theorem integer_directive_setters_validation :
    (∀ (sc : ServerConfig) (arg : String),
      (cmd_passenger_log_level sc arg).1
        = (if (strtol10 arg.data).2.isEmpty = false then some msg_PassengerLogLevel_invalid
           else if (strtol10 arg.data).1 < 0 ∨ (strtol10 arg.data).1 > 9 then
             some msg_PassengerLogLevel_range
           else none)
      ∧ (cmd_passenger_max_pool_size sc arg).1
        = (if (strtol10 arg.data).2.isEmpty = false then some msg_PassengerMaxPoolSize_invalid
           else if (strtol10 arg.data).1 ≤ 0 then some msg_PassengerMaxPoolSize_range
           else none)
      ∧ (cmd_passenger_pool_idle_time sc arg).1
        = (if (strtol10 arg.data).2.isEmpty = false then some msg_PassengerPoolIdleTime_invalid
           else if (strtol10 arg.data).1 ≤ 0 then some msg_PassengerPoolIdleTime_range
           else none))
    ∧ cmd_passenger_log_level passenger_config_create_server "0"
        = (none, { passenger_config_create_server with logLevel := 0 })
    ∧ cmd_passenger_log_level passenger_config_create_server "9"
        = (none, { passenger_config_create_server with logLevel := 9 })
    ∧ (cmd_passenger_log_level passenger_config_create_server "-1").1
        = some msg_PassengerLogLevel_range
    ∧ (cmd_passenger_log_level passenger_config_create_server "10").1
        = some msg_PassengerLogLevel_range
    ∧ (cmd_passenger_log_level passenger_config_create_server "5x").1
        = some msg_PassengerLogLevel_invalid
    ∧ (cmd_passenger_max_pool_size passenger_config_create_server "0").1
        = some msg_PassengerMaxPoolSize_range
    ∧ cmd_passenger_max_pool_size passenger_config_create_server "1"
        = (none, { passenger_config_create_server with
            maxPoolSize := 1, maxPoolSizeSpecified := true })
    ∧ (cmd_passenger_pool_idle_time passenger_config_create_server "0").1
        = some msg_PassengerPoolIdleTime_range
    ∧ cmd_passenger_pool_idle_time passenger_config_create_server "1"
        = (none, { passenger_config_create_server with
            poolIdleTime := 1, poolIdleTimeSpecified := true }) := by
  refine ⟨?_, by decide, by decide, by decide, by decide, by decide, by decide, by decide,
    by decide, by decide⟩
  intro sc arg
  refine ⟨?_, ?_, ?_⟩
  · simp only [cmd_passenger_log_level]
    split
    · rfl
    · split <;> rfl
  · simp only [cmd_passenger_max_pool_size]
    split
    · rfl
    · split <;> rfl
  · simp only [cmd_passenger_pool_idle_time]
    split
    · rfl
    · split <;> rfl

/-- C10: the per-application instance-cap setter has no range check: whenever
`strtol` consumes the whole argument (negative values included) it succeeds,
stores the result cast to `unsigned int` (so "-1" wraps to 2^32 - 1) and sets
the explicit-set flag, while the pool-size and idle-time setters reject the
same argument "-1" as below their minimum. -/
theorem max_instances_per_app_no_range_check :
    (∀ (sc : ServerConfig) (arg : String),
      cmd_passenger_max_instances_per_app sc arg
        = (if (strtol10 arg.data).2.isEmpty = false then
             (some msg_PassengerMaxInstancesPerApp_invalid, sc)
           else (none,
             { sc with
               maxInstancesPerApp := uintOfLong (strtol10 arg.data).1
               maxInstancesPerAppSpecified := true })))
    ∧ cmd_passenger_max_instances_per_app passenger_config_create_server "-1"
        = (none, { passenger_config_create_server with
            maxInstancesPerApp := 4294967295, maxInstancesPerAppSpecified := true })
    ∧ (cmd_passenger_max_pool_size passenger_config_create_server "-1").1
        = some msg_PassengerMaxPoolSize_range
    ∧ (cmd_passenger_pool_idle_time passenger_config_create_server "-1").1
        = some msg_PassengerPoolIdleTime_range := by
  refine ⟨?_, by decide, by decide, by decide⟩
  intro sc arg
  rfl

/-!
### Frame and atomicity lemmas for the fallible setter handlers

`_frame` lemmas say the result record can differ from the input only in the
handler's designated field (and its companion explicit-set flag); `_atomic`
lemmas say the handler either reports success or returns the record
untouched; `_flag` lemmas say the tracking flag is set exactly on success.
-/

theorem cmd_passenger_log_level_frame (sc : ServerConfig) (arg : String) :
    (cmd_passenger_log_level sc arg).2
      = { sc with logLevel := (cmd_passenger_log_level sc arg).2.logLevel } := by
  simp only [cmd_passenger_log_level]
  split
  · rfl
  · split <;> rfl

theorem cmd_passenger_log_level_atomic (sc : ServerConfig) (arg : String) :
    (cmd_passenger_log_level sc arg).1 = none ∨ (cmd_passenger_log_level sc arg).2 = sc := by
  simp only [cmd_passenger_log_level]
  split
  · exact Or.inr rfl
  · split
    · exact Or.inr rfl
    · exact Or.inl rfl

theorem cmd_passenger_max_pool_size_frame (sc : ServerConfig) (arg : String) :
    (cmd_passenger_max_pool_size sc arg).2
      = { sc with
          maxPoolSize := (cmd_passenger_max_pool_size sc arg).2.maxPoolSize
          maxPoolSizeSpecified := (cmd_passenger_max_pool_size sc arg).2.maxPoolSizeSpecified } := by
  simp only [cmd_passenger_max_pool_size]
  split
  · rfl
  · split <;> rfl

theorem cmd_passenger_max_pool_size_atomic (sc : ServerConfig) (arg : String) :
    (cmd_passenger_max_pool_size sc arg).1 = none
      ∨ (cmd_passenger_max_pool_size sc arg).2 = sc := by
  simp only [cmd_passenger_max_pool_size]
  split
  · exact Or.inr rfl
  · split
    · exact Or.inr rfl
    · exact Or.inl rfl

theorem cmd_passenger_max_pool_size_flag (sc : ServerConfig) (arg : String) :
    (cmd_passenger_max_pool_size sc arg).2.maxPoolSizeSpecified
      = (if (cmd_passenger_max_pool_size sc arg).1 = none then true
         else sc.maxPoolSizeSpecified) := by
  simp only [cmd_passenger_max_pool_size]
  split
  · simp
  · split <;> simp

theorem cmd_passenger_max_instances_per_app_frame (sc : ServerConfig) (arg : String) :
    (cmd_passenger_max_instances_per_app sc arg).2
      = { sc with
          maxInstancesPerApp := (cmd_passenger_max_instances_per_app sc arg).2.maxInstancesPerApp
          maxInstancesPerAppSpecified :=
            (cmd_passenger_max_instances_per_app sc arg).2.maxInstancesPerAppSpecified } := by
  simp only [cmd_passenger_max_instances_per_app]
  split <;> rfl

theorem cmd_passenger_max_instances_per_app_atomic (sc : ServerConfig) (arg : String) :
    (cmd_passenger_max_instances_per_app sc arg).1 = none
      ∨ (cmd_passenger_max_instances_per_app sc arg).2 = sc := by
  simp only [cmd_passenger_max_instances_per_app]
  split
  · exact Or.inr rfl
  · exact Or.inl rfl

theorem cmd_passenger_max_instances_per_app_flag (sc : ServerConfig) (arg : String) :
    (cmd_passenger_max_instances_per_app sc arg).2.maxInstancesPerAppSpecified
      = (if (cmd_passenger_max_instances_per_app sc arg).1 = none then true
         else sc.maxInstancesPerAppSpecified) := by
  simp only [cmd_passenger_max_instances_per_app]
  split <;> simp

theorem cmd_passenger_pool_idle_time_frame (sc : ServerConfig) (arg : String) :
    (cmd_passenger_pool_idle_time sc arg).2
      = { sc with
          poolIdleTime := (cmd_passenger_pool_idle_time sc arg).2.poolIdleTime
          poolIdleTimeSpecified := (cmd_passenger_pool_idle_time sc arg).2.poolIdleTimeSpecified } := by
  simp only [cmd_passenger_pool_idle_time]
  split
  · rfl
  · split <;> rfl

theorem cmd_passenger_pool_idle_time_atomic (sc : ServerConfig) (arg : String) :
    (cmd_passenger_pool_idle_time sc arg).1 = none
      ∨ (cmd_passenger_pool_idle_time sc arg).2 = sc := by
  simp only [cmd_passenger_pool_idle_time]
  split
  · exact Or.inr rfl
  · split
    · exact Or.inr rfl
    · exact Or.inl rfl

theorem cmd_passenger_pool_idle_time_flag (sc : ServerConfig) (arg : String) :
    (cmd_passenger_pool_idle_time sc arg).2.poolIdleTimeSpecified
      = (if (cmd_passenger_pool_idle_time sc arg).1 = none then true
         else sc.poolIdleTimeSpecified) := by
  simp only [cmd_passenger_pool_idle_time]
  split
  · simp
  · split <;> simp

theorem cmd_passenger_max_requests_frame (dc : DirConfig) (arg : String) :
    (cmd_passenger_max_requests dc arg).2
      = { dc with
          maxRequests := (cmd_passenger_max_requests dc arg).2.maxRequests
          maxRequestsSpecified := (cmd_passenger_max_requests dc arg).2.maxRequestsSpecified } := by
  simp only [cmd_passenger_max_requests]
  split
  · rfl
  · split <;> rfl

theorem cmd_passenger_max_requests_atomic (dc : DirConfig) (arg : String) :
    (cmd_passenger_max_requests dc arg).1 = none
      ∨ (cmd_passenger_max_requests dc arg).2 = dc := by
  simp only [cmd_passenger_max_requests]
  split
  · exact Or.inr rfl
  · split
    · exact Or.inr rfl
    · exact Or.inl rfl

theorem cmd_passenger_max_requests_flag (dc : DirConfig) (arg : String) :
    (cmd_passenger_max_requests dc arg).2.maxRequestsSpecified
      = (if (cmd_passenger_max_requests dc arg).1 = none then true
         else dc.maxRequestsSpecified) := by
  simp only [cmd_passenger_max_requests]
  split
  · simp
  · split <;> simp

theorem cmd_rails_spawn_method_frame (dc : DirConfig) (arg : String) :
    (cmd_rails_spawn_method dc arg).2
      = { dc with spawnMethod := (cmd_rails_spawn_method dc arg).2.spawnMethod } := by
  simp only [cmd_rails_spawn_method]
  split
  · rfl
  · split
    · rfl
    · split <;> rfl

theorem cmd_rails_spawn_method_atomic (dc : DirConfig) (arg : String) :
    (cmd_rails_spawn_method dc arg).1 = none ∨ (cmd_rails_spawn_method dc arg).2 = dc := by
  simp only [cmd_rails_spawn_method]
  split
  · exact Or.inl rfl
  · split
    · exact Or.inl rfl
    · split
      · exact Or.inl rfl
      · exact Or.inr rfl

theorem cmd_rails_framework_spawner_idle_time_frame (dc : DirConfig) (arg : String) :
    (cmd_rails_framework_spawner_idle_time dc arg).2
      = { dc with
          frameworkSpawnerTimeout :=
            (cmd_rails_framework_spawner_idle_time dc arg).2.frameworkSpawnerTimeout } := by
  simp only [cmd_rails_framework_spawner_idle_time]
  split
  · rfl
  · split <;> rfl

theorem cmd_rails_framework_spawner_idle_time_atomic (dc : DirConfig) (arg : String) :
    (cmd_rails_framework_spawner_idle_time dc arg).1 = none
      ∨ (cmd_rails_framework_spawner_idle_time dc arg).2 = dc := by
  simp only [cmd_rails_framework_spawner_idle_time]
  split
  · exact Or.inr rfl
  · split
    · exact Or.inr rfl
    · exact Or.inl rfl

theorem cmd_rails_app_spawner_idle_time_frame (dc : DirConfig) (arg : String) :
    (cmd_rails_app_spawner_idle_time dc arg).2
      = { dc with
          appSpawnerTimeout := (cmd_rails_app_spawner_idle_time dc arg).2.appSpawnerTimeout } := by
  simp only [cmd_rails_app_spawner_idle_time]
  split
  · rfl
  · split <;> rfl

theorem cmd_rails_app_spawner_idle_time_atomic (dc : DirConfig) (arg : String) :
    (cmd_rails_app_spawner_idle_time dc arg).1 = none
      ∨ (cmd_rails_app_spawner_idle_time dc arg).2 = dc := by
  simp only [cmd_rails_app_spawner_idle_time]
  split
  · exact Or.inr rfl
  · split
    · exact Or.inr rfl
    · exact Or.inl rfl

/-- C9: every setter handler is atomic: it either reports success having
changed at most its designated field (plus the companion explicit-set flag
where one exists, which is set exactly on success), or returns its fixed
error message leaving the record exactly as it was; in particular the
spawn-strategy setter given "turbo" returns the fixed message listing the
three valid choices and leaves the record — hence the spawn-method field,
Unset on a fresh record — unchanged. -/
theorem setters_atomic_on_failure :
    ∀ (sc : ServerConfig) (dc : DirConfig) (arg : String) (flag : Bool),
      (cmd_passenger_root sc arg).2 = { sc with root := (cmd_passenger_root sc arg).2.root }
      ∧ (cmd_passenger_root sc arg).1 = none
      ∧ (cmd_passenger_log_level sc arg).2
        = { sc with logLevel := (cmd_passenger_log_level sc arg).2.logLevel }
      ∧ ((cmd_passenger_log_level sc arg).1 = none ∨ (cmd_passenger_log_level sc arg).2 = sc)
      ∧ (cmd_passenger_ruby sc arg).2 = { sc with ruby := (cmd_passenger_ruby sc arg).2.ruby }
      ∧ (cmd_passenger_ruby sc arg).1 = none
      ∧ (cmd_passenger_max_pool_size sc arg).2
        = { sc with
            maxPoolSize := (cmd_passenger_max_pool_size sc arg).2.maxPoolSize
            maxPoolSizeSpecified := (cmd_passenger_max_pool_size sc arg).2.maxPoolSizeSpecified }
      ∧ ((cmd_passenger_max_pool_size sc arg).1 = none
          ∨ (cmd_passenger_max_pool_size sc arg).2 = sc)
      ∧ (cmd_passenger_max_pool_size sc arg).2.maxPoolSizeSpecified
        = (if (cmd_passenger_max_pool_size sc arg).1 = none then true
           else sc.maxPoolSizeSpecified)
      ∧ (cmd_passenger_max_instances_per_app sc arg).2
        = { sc with
            maxInstancesPerApp := (cmd_passenger_max_instances_per_app sc arg).2.maxInstancesPerApp
            maxInstancesPerAppSpecified :=
              (cmd_passenger_max_instances_per_app sc arg).2.maxInstancesPerAppSpecified }
      ∧ ((cmd_passenger_max_instances_per_app sc arg).1 = none
          ∨ (cmd_passenger_max_instances_per_app sc arg).2 = sc)
      ∧ (cmd_passenger_max_instances_per_app sc arg).2.maxInstancesPerAppSpecified
        = (if (cmd_passenger_max_instances_per_app sc arg).1 = none then true
           else sc.maxInstancesPerAppSpecified)
      ∧ (cmd_passenger_pool_idle_time sc arg).2
        = { sc with
            poolIdleTime := (cmd_passenger_pool_idle_time sc arg).2.poolIdleTime
            poolIdleTimeSpecified := (cmd_passenger_pool_idle_time sc arg).2.poolIdleTimeSpecified }
      ∧ ((cmd_passenger_pool_idle_time sc arg).1 = none
          ∨ (cmd_passenger_pool_idle_time sc arg).2 = sc)
      ∧ (cmd_passenger_pool_idle_time sc arg).2.poolIdleTimeSpecified
        = (if (cmd_passenger_pool_idle_time sc arg).1 = none then true
           else sc.poolIdleTimeSpecified)
      ∧ (cmd_passenger_use_global_queue dc flag).2
        = { dc with useGlobalQueue := (cmd_passenger_use_global_queue dc flag).2.useGlobalQueue }
      ∧ (cmd_passenger_use_global_queue dc flag).1 = none
      ∧ (cmd_passenger_user_switching sc flag).2
        = { sc with
            userSwitching := (cmd_passenger_user_switching sc flag).2.userSwitching
            userSwitchingSpecified := (cmd_passenger_user_switching sc flag).2.userSwitchingSpecified }
      ∧ (cmd_passenger_user_switching sc flag).1 = none
      ∧ (cmd_passenger_user_switching sc flag).2.userSwitchingSpecified = true
      ∧ (cmd_passenger_default_user sc arg).2
        = { sc with defaultUser := (cmd_passenger_default_user sc arg).2.defaultUser }
      ∧ (cmd_passenger_default_user sc arg).1 = none
      ∧ (cmd_passenger_max_requests dc arg).2
        = { dc with
            maxRequests := (cmd_passenger_max_requests dc arg).2.maxRequests
            maxRequestsSpecified := (cmd_passenger_max_requests dc arg).2.maxRequestsSpecified }
      ∧ ((cmd_passenger_max_requests dc arg).1 = none
          ∨ (cmd_passenger_max_requests dc arg).2 = dc)
      ∧ (cmd_passenger_max_requests dc arg).2.maxRequestsSpecified
        = (if (cmd_passenger_max_requests dc arg).1 = none then true
           else dc.maxRequestsSpecified)
      ∧ (cmd_passenger_high_performance dc flag).2
        = { dc with highPerformance := (cmd_passenger_high_performance dc flag).2.highPerformance }
      ∧ (cmd_passenger_high_performance dc flag).1 = none
      ∧ (cmd_passenger_enabled dc flag).2
        = { dc with enabled := (cmd_passenger_enabled dc flag).2.enabled }
      ∧ (cmd_passenger_enabled dc flag).1 = none
      ∧ (cmd_rails_base_uri dc arg).2
        = { dc with railsBaseURIs := (cmd_rails_base_uri dc arg).2.railsBaseURIs }
      ∧ (cmd_rails_base_uri dc arg).1 = none
      ∧ (cmd_rails_auto_detect dc flag).2
        = { dc with autoDetectRails := (cmd_rails_auto_detect dc flag).2.autoDetectRails }
      ∧ (cmd_rails_auto_detect dc flag).1 = none
      ∧ (cmd_rails_allow_mod_rewrite dc flag).2
        = { dc with allowModRewrite := (cmd_rails_allow_mod_rewrite dc flag).2.allowModRewrite }
      ∧ (cmd_rails_allow_mod_rewrite dc flag).1 = none
      ∧ (cmd_rails_env dc arg).2 = { dc with railsEnv := (cmd_rails_env dc arg).2.railsEnv }
      ∧ (cmd_rails_env dc arg).1 = none
      ∧ (cmd_rails_app_root dc arg).2
        = { dc with railsAppRoot := (cmd_rails_app_root dc arg).2.railsAppRoot }
      ∧ (cmd_rails_app_root dc arg).1 = none
      ∧ (cmd_rails_spawn_method dc arg).2
        = { dc with spawnMethod := (cmd_rails_spawn_method dc arg).2.spawnMethod }
      ∧ ((cmd_rails_spawn_method dc arg).1 = none ∨ (cmd_rails_spawn_method dc arg).2 = dc)
      ∧ (cmd_rails_framework_spawner_idle_time dc arg).2
        = { dc with
            frameworkSpawnerTimeout :=
              (cmd_rails_framework_spawner_idle_time dc arg).2.frameworkSpawnerTimeout }
      ∧ ((cmd_rails_framework_spawner_idle_time dc arg).1 = none
          ∨ (cmd_rails_framework_spawner_idle_time dc arg).2 = dc)
      ∧ (cmd_rails_app_spawner_idle_time dc arg).2
        = { dc with
            appSpawnerTimeout := (cmd_rails_app_spawner_idle_time dc arg).2.appSpawnerTimeout }
      ∧ ((cmd_rails_app_spawner_idle_time dc arg).1 = none
          ∨ (cmd_rails_app_spawner_idle_time dc arg).2 = dc)
      ∧ (cmd_rack_base_uri dc arg).2
        = { dc with rackBaseURIs := (cmd_rack_base_uri dc arg).2.rackBaseURIs }
      ∧ (cmd_rack_base_uri dc arg).1 = none
      ∧ (cmd_rack_auto_detect dc flag).2
        = { dc with autoDetectRack := (cmd_rack_auto_detect dc flag).2.autoDetectRack }
      ∧ (cmd_rack_auto_detect dc flag).1 = none
      ∧ (cmd_rack_env dc arg).2 = { dc with rackEnv := (cmd_rack_env dc arg).2.rackEnv }
      ∧ (cmd_rack_env dc arg).1 = none
      ∧ (cmd_wsgi_auto_detect dc flag).2
        = { dc with autoDetectWSGI := (cmd_wsgi_auto_detect dc flag).2.autoDetectWSGI }
      ∧ (cmd_wsgi_auto_detect dc flag).1 = none
      ∧ cmd_rails_spawn_server dc arg = (none, dc)
      ∧ cmd_rails_spawn_method dc "turbo" = (some msg_RailsSpawnMethod_choices, dc)
      ∧ (cmd_rails_spawn_method passenger_config_create_dir "turbo").2.spawnMethod
        = SpawnMethod.SM_UNSET := by
  intro sc dc arg flag
  exact ⟨rfl, rfl,
    cmd_passenger_log_level_frame sc arg,
    cmd_passenger_log_level_atomic sc arg,
    rfl, rfl,
    cmd_passenger_max_pool_size_frame sc arg,
    cmd_passenger_max_pool_size_atomic sc arg,
    cmd_passenger_max_pool_size_flag sc arg,
    cmd_passenger_max_instances_per_app_frame sc arg,
    cmd_passenger_max_instances_per_app_atomic sc arg,
    cmd_passenger_max_instances_per_app_flag sc arg,
    cmd_passenger_pool_idle_time_frame sc arg,
    cmd_passenger_pool_idle_time_atomic sc arg,
    cmd_passenger_pool_idle_time_flag sc arg,
    by simp only [cmd_passenger_use_global_queue]; split <;> rfl,
    by simp only [cmd_passenger_use_global_queue]; split <;> rfl,
    rfl, rfl, rfl, rfl, rfl,
    cmd_passenger_max_requests_frame dc arg,
    cmd_passenger_max_requests_atomic dc arg,
    cmd_passenger_max_requests_flag dc arg,
    by simp only [cmd_passenger_high_performance]; split <;> rfl,
    by simp only [cmd_passenger_high_performance]; split <;> rfl,
    by simp only [cmd_passenger_enabled]; split <;> rfl,
    by simp only [cmd_passenger_enabled]; split <;> rfl,
    rfl, rfl, rfl, rfl, rfl, rfl, rfl, rfl, rfl, rfl,
    cmd_rails_spawn_method_frame dc arg,
    cmd_rails_spawn_method_atomic dc arg,
    cmd_rails_framework_spawner_idle_time_frame dc arg,
    cmd_rails_framework_spawner_idle_time_atomic dc arg,
    cmd_rails_app_spawner_idle_time_frame dc arg,
    cmd_rails_app_spawner_idle_time_atomic dc arg,
    rfl, rfl, rfl, rfl, rfl, rfl, rfl, rfl,
    rfl,
    by rw [cmd_rails_spawn_method, if_neg (by decide), if_neg (by decide), if_neg (by decide)],
    by decide⟩
